import Mathlib

/-!
Verification development for the Sales Insights data pipeline
(`Tipa.py`).  The pipeline is shallowly embedded: a raw grid is a list
of rows of nullable cells, a table is a list of named columns, and the
normalizer, loader, aggregation and forecast functions below are direct
translations of `parse_excel_csv`, `load_data`, `stats_summary`,
`generate_pivot`, the pivot-button handler in `main`, and
`run_forecast`.  Machine floats are modelled by exact rationals; the
square roots taken by the standard-deviation aggregations are kept in
exact form (the squared value, or a symbolic square-root tag).
-/

/-- A spreadsheet cell: absent (NaN), a number, or a piece of text.
This is the nullable-cell value space the pandas pipeline works on. -/
inductive Cell where
  | null : Cell
  | num (q : ℚ) : Cell
  | str (s : String) : Cell
deriving DecidableEq, Repr

/-- A raw, headerless grid as delivered by the file readers
(`pd.read_csv(header=None)` / `pd.read_excel(header=None)`). -/
abbrev Grid := List (List Cell)

/-- A normalized table: named columns, each an ordered list of cells. -/
structure Table where
  cols : List (String × List Cell)
deriving DecidableEq, Repr

/-- Column names of a table, in order. -/
def Table.names (t : Table) : List String := t.cols.map Prod.fst

/-- Number of rows of a (rectangular) table, read off the first column,
matching how pandas reports the row count of a DataFrame. -/
def Table.nrows (t : Table) : ℕ :=
  match t.cols with
  | [] => 0
  | c :: _ => c.2.length

/-- True for the absent cell, mirroring `pd.isna`. -/
def Cell.isNA : Cell → Bool
  | .null => true
  | _ => false

/-- True for a text cell. -/
def Cell.isStr : Cell → Bool
  | .str _ => true
  | _ => false

/-- True for a numeric cell. -/
def Cell.isNum : Cell → Bool
  | .num _ => true
  | _ => false

/-- The numeric payload of a cell, when present. -/
def Cell.toNum? : Cell → Option ℚ
  | .num q => some q
  | _ => none

/-- Decimal digit test for the number parser. -/
def isDigitCh (c : Char) : Bool := decide ('0' ≤ c) && decide (c ≤ '9')

/-- Value of a list of decimal digits. -/
def digitsToNat (cs : List Char) : ℕ :=
  cs.foldl (fun a c => 10 * a + (c.toNat - 48)) 0

/-- Models the number parsing done by `pd.to_numeric` / `float` on a
plain decimal literal: optional sign, integer part, optional fractional
part.  Exotic forms (exponents, underscores) are out of scope of the
claims and parse to `none`. -/
def parseNum (s : String) : Option ℚ :=
  let cs := s.trim.toList
  let (sgn, rest) : ℚ × List Char :=
    match cs with
    | '-' :: r => (-1, r)
    | '+' :: r => (1, r)
    | r => (1, r)
  let intPart := rest.takeWhile isDigitCh
  let rest2 := rest.drop intPart.length
  match rest2 with
  | [] =>
      if intPart.isEmpty then none
      else some (sgn * digitsToNat intPart)
  | '.' :: frac =>
      if frac.all isDigitCh && !(intPart.isEmpty && frac.isEmpty) then
        some (sgn * ((digitsToNat intPart : ℚ) +
          (digitsToNat frac : ℚ) / ((10 : ℚ) ^ frac.length)))
      else none
  | _ => none

/-- Embedding of `pd.to_numeric(column, errors='ignore')`, the per
column coercion loop of `parse_excel_csv` (and of the post-processing
in `load_data`): if every text cell of the column parses as a number,
the whole column is converted (nulls stay null, numbers stay numbers);
if any text cell fails to parse, the column is returned unchanged.  The
string-to-number parser is a parameter so the all-or-nothing behaviour
can be stated for any parser; the pipeline instantiates it with
`parseNum`. -/
def toNumericIgnore (parse : String → Option ℚ) (col : List Cell) : List Cell :=
  if col.all (fun c => match c with
      | .str s => (parse s).isSome
      | _ => true) then
    col.map (fun c => match c with
      | .str s => Cell.num ((parse s).getD 0)
      | c => c)
  else col

/-- True if a row still has at least one non-null cell; rows failing
this are removed by `df.dropna(how='all')`. -/
def rowHasValue (r : List Cell) : Bool := r.any (fun c => !c.isNA)

/-- Width of a raw grid: the readers pad short rows with nulls up to
the widest row, so the DataFrame has this many columns. -/
def gridWidth (g : Grid) : ℕ := (g.map List.length).foldr Nat.max 0

/-- Cell of a row at a column position, null-padded past the end. -/
def cellAtRow (r : List Cell) (j : ℕ) : Cell := r.getD j Cell.null

/-- Rows surviving `df.dropna(how='all')`, each paired with its
original row label: pandas keeps the original integer index labels
after dropping, which is what makes the header selection below
label/position sensitive. -/
def survivingRows (g : Grid) : List (ℕ × List Cell) :=
  g.enum.filter (fun p => rowHasValue p.2)

/-- Column positions surviving `df.dropna(axis=1, how='all')`: a column
is kept when some surviving row has a non-null cell there. -/
def survivingCols (g : Grid) : List ℕ :=
  (List.range (gridWidth g)).filter
    (fun j => (survivingRows g).any (fun p => !(cellAtRow p.2 j).isNA))

/-- The grid after both drops, labels preserved. -/
def cleanedRows (g : Grid) : List (ℕ × List Cell) :=
  (survivingRows g).map (fun p => (p.1, (survivingCols g).map (cellAtRow p.2)))

/-- Embedding of `df.notna().sum(axis=1).idxmax()`: the original row
label of the first surviving row whose non-null cell count is maximal. -/
def headerLabel (g : Grid) : ℕ :=
  let counts := (cleanedRows g).map (fun p => (p.1, (p.2.filter (fun c => !c.isNA)).length))
  let m := (counts.map Prod.snd).foldr Nat.max 0
  ((counts.filter (fun p => p.2 = m)).headD (0, 0)).1

/-- Stringification used for header cells, `astype(str).str.strip()`:
pandas renders the missing value as the text nan. -/
def cellToStr : Cell → String
  | .null => "nan"
  | .str s => s.trim
  | .num q => toString q

/-- Column-name cleaning from `parse_excel_csv`: a name that is blank
after trimming or starts with Unnamed is replaced by a synthetic
Column_i, where i is the position among the kept columns. -/
def cleanNames (names : List String) : List String :=
  names.enum.map (fun p =>
    if p.2.trim ≠ "" ∧ ¬ p.2.trim.startsWith "Unnamed" then p.2
    else "Column_" ++ toString p.1)

/-- Embedding of `parse_excel_csv` (after the file read): drop fully
empty rows and columns; fail on an empty result; pick the header row
via `idxmax` (a label) but index it with `iloc` (a position) exactly as
the source does; everything strictly below the selected position is the
body; clean the names; drop rows that became fully empty; coerce each
column with `to_numeric(errors='ignore')`; and keep only the first of
any duplicated column names.  Returns `none` where the source returns
`None` or raises (the out-of-range `iloc` raises `IndexError`, which
the caller `load_data` turns into a failed load). -/
def parse_excel_csv (g : Grid) : Option Table :=
  let rows2 := cleanedRows g
  if rows2.isEmpty then none
  else
    match rows2.get? (headerLabel g) with
    | none => none
    | some hdr =>
      let names0 := hdr.2.map cellToStr
      let body0 := (rows2.drop (headerLabel g + 1)).map Prod.snd
      let names := cleanNames names0
      let body1 := body0.filter rowHasValue
      let colsRaw := names.enum.map (fun p =>
        (p.2, toNumericIgnore parseNum (body1.map (fun r => cellAtRow r p.1))))
      let colsD := colsRaw.enum.filter
        (fun p => ¬ ((colsRaw.take p.1).map Prod.fst).contains p.2.1)
      some ⟨colsD.map Prod.snd⟩

/-- Session state held by the Streamlit shell: the loaded table and
the name of the file it came from. -/
structure Session where
  df : Option Table
  fileName : Option String
deriving DecidableEq, Repr

/-- Outcome of the format-specific parser invoked by `load_data`: it
either returned (possibly `None`), or raised an exception. -/
inductive ParseOutcome where
  | parsed (t : Option Table) : ParseOutcome
  | raised : ParseOutcome
deriving DecidableEq, Repr

/-- Extension dispatch of `load_data`, case-insensitive. -/
def supportedExt (name : String) : Bool :=
  ["pdf", "html", "htm", "csv", "xls", "xlsx"].any
    (fun e => name.toLower.endsWith ("." ++ e))

/-- Embedding of `df.empty`: no columns, or zero rows. -/
def tableIsEmpty (t : Table) : Bool := t.cols.isEmpty || t.nrows = 0

/-- Post-processing applied by `load_data` to a successfully parsed
table: drop fully empty rows and columns again and re-run the numeric
coercion on every column. -/
def postprocess (t : Table) : Table :=
  let keepRows := (List.range t.nrows).filter
    (fun i => t.cols.any (fun c => !(c.2.getD i Cell.null).isNA))
  let cols1 := t.cols.map (fun c => (c.1, keepRows.map (fun i => c.2.getD i Cell.null)))
  let cols2 := cols1.filter (fun c => c.2.any (fun x => !x.isNA))
  ⟨cols2.map (fun c => (c.1, toNumericIgnore parseNum c.2))⟩

/-- Embedding of `load_data`: on an unsupported extension the function
returns before touching the session; on a successful non-empty parse
the post-processed table replaces the session table; on a `None`
result, an empty result, or an exception, BOTH session fields are
overwritten with `None` (this is what the source does on every failure
path). -/
def load_data (prev : Session) (name : String) (out : ParseOutcome) : Session :=
  if ¬ supportedExt name then prev
  else
    match out with
    | .raised => ⟨none, none⟩
    | .parsed none => ⟨none, none⟩
    | .parsed (some t) =>
        if tableIsEmpty t then ⟨none, none⟩
        else ⟨some (postprocess t), some name⟩

/-- Numeric payloads of the cells of a column (pandas aggregations skip
missing values). -/
def numsOf (cells : List Cell) : List ℚ := cells.filterMap Cell.toNum?

/-- Insert into a sorted list, for the medians below. -/
def sortedInsert (x : ℚ) : List ℚ → List ℚ
  | [] => [x]
  | y :: ys => if x ≤ y then x :: y :: ys else y :: sortedInsert x ys

/-- Insertion sort on rationals. -/
def sortQ (l : List ℚ) : List ℚ := l.foldr sortedInsert []

/-- Insert into a sorted list of integers, for bucket ordering. -/
def sortedInsertZ (x : ℤ) : List ℤ → List ℤ
  | [] => [x]
  | y :: ys => if x ≤ y then x :: y :: ys else y :: sortedInsertZ x ys

/-- Insertion sort on integers. -/
def sortZ (l : List ℤ) : List ℤ := l.foldr sortedInsertZ []

/-- Mean of a list of rationals; only ever applied to non-empty lists
by the pipeline (rational division by zero yields zero, a branch the
embedded code never reaches). -/
def meanQ (l : List ℚ) : ℚ := l.sum / l.length

/-- Mean as pandas reports it: missing (NaN) on an empty column. -/
def meanQ? (l : List ℚ) : Option ℚ :=
  if l.isEmpty then none else some (meanQ l)

/-- Median: middle of the sorted values, averaging the two middle
values on an even count; missing on an empty column. -/
def medianQ (l : List ℚ) : Option ℚ :=
  let s := sortQ l
  let n := s.length
  if n = 0 then none
  else if n % 2 = 1 then some (s.getD (n / 2) 0)
  else some ((s.getD (n / 2 - 1) 0 + s.getD (n / 2) 0) / 2)

/-- Maximum of a column; missing on an empty column. -/
def listMax (l : List ℚ) : Option ℚ :=
  l.foldl (fun a x => match a with
    | none => some x
    | some m => some (if x ≤ m then m else x)) none

/-- Minimum of a column; missing on an empty column. -/
def listMin (l : List ℚ) : Option ℚ :=
  l.foldl (fun a x => match a with
    | none => some x
    | some m => some (if m ≤ x then m else x)) none

/-- Sample variance (ddof = 1), the square of the standard deviation
pandas computes for the `std` entry of `stats_summary`; missing when
fewer than two values are present.  The exact square is carried
because the square root itself is irrational. -/
def sampleVar? (l : List ℚ) : Option ℚ :=
  if l.length ≤ 1 then none
  else some (((l.map (fun x => (x - meanQ l) ^ 2)).sum) / ((l.length : ℚ) - 1))

/-- Population variance (ddof = 0), the square of `np.std` /
`np.nanstd`; zero on an empty list, a branch never reached. -/
def popVar (l : List ℚ) : ℚ :=
  if l.isEmpty then 0
  else ((l.map (fun x => (x - meanQ l) ^ 2)).sum) / (l.length : ℚ)

/-- A numeric-dtype column as selected by
`select_dtypes(include=[np.number])`: after the load pipeline a column
is numeric exactly when it holds no text cells. -/
def isNumericColumn (cells : List Cell) : Bool := cells.all (fun c => !c.isStr)

/-- Per-column descriptive statistics, the row produced for one column
by `numeric.agg(['count','mean','median','max','min','std'])`.  The
`varSample` field carries the exact square of the `std` entry. -/
structure ColStats where
  count : ℕ
  mean : Option ℚ
  median : Option ℚ
  mx : Option ℚ
  mn : Option ℚ
  varSample : Option ℚ
deriving DecidableEq, Repr

/-- Statistics of one column, missing values skipped as pandas does. -/
def colStats (cells : List Cell) : ColStats :=
  let l := numsOf cells
  ⟨l.length, meanQ? l, medianQ l, listMax l, listMin l, sampleVar? l⟩

/-- Embedding of `stats_summary`: descriptive statistics for every
numeric column, keyed by column name (the transpose of the pandas
result, one entry per column). -/
def stats_summary (df : Table) : List (String × ColStats) :=
  (df.cols.filter (fun c => isNumericColumn c.2)).map (fun c => (c.1, colStats c.2))

/-- The closed set of aggregation kinds appearing in `agg_map`. -/
inductive AggKind where
  | sum | mean | median | count | min | max | std
deriving DecidableEq, Repr

/-- An aggregated pivot cell value: a rational, or the square root of
a rational (the `std` aggregation), kept in exact symbolic form. -/
inductive AggVal where
  | q (x : ℚ) : AggVal
  | sqrtOf (x : ℚ) : AggVal
deriving DecidableEq, Repr

/-- Embedding of the `agg_map` lookup in `generate_pivot`:
`agg_map.get(aggfunc, np.sum)` maps the seven known selector strings to
their aggregation and maps EVERY other string to sum (the dictionary
default). -/
def agg_map (s : String) : AggKind :=
  if s = "sum" then .sum
  else if s = "mean" then .mean
  else if s = "median" then .median
  else if s = "count" then .count
  else if s = "min" then .min
  else if s = "max" then .max
  else if s = "std" then .std
  else .sum

/-- Count of non-null cells, the `count` aggregation. -/
def countNonNull (cells : List Cell) : ℕ :=
  (cells.filter (fun c => !c.isNA)).length

/-- One aggregation applied to the cells of a group: `count` counts
non-null cells, the numeric aggregations act on the numeric values
(value columns are numeric by the caller, which restricts the value
selector to numeric columns), `std` is `np.std`, a population standard
deviation, carried as an exact symbolic square root. -/
def aggregate (k : AggKind) (cells : List Cell) : Option AggVal :=
  match k with
  | .count => some (.q (countNonNull cells))
  | .sum => some (.q (numsOf cells).sum)
  | .mean => (meanQ? (numsOf cells)).map .q
  | .median => (medianQ (numsOf cells)).map .q
  | .min => (listMin (numsOf cells)).map .q
  | .max => (listMax (numsOf cells)).map .q
  | .std =>
      if (numsOf cells).isEmpty then none
      else some (.sqrtOf (popVar (numsOf cells)))

/-- Cell of a named column at a row position. -/
def cellAt (df : Table) (name : String) (i : ℕ) : Cell :=
  match df.cols.find? (fun p => p.1 = name) with
  | some p => p.2.getD i Cell.null
  | none => Cell.null

/-- The grouping key of one row: its cells under the grouping columns. -/
def keyTuple (df : Table) (keys : List String) (i : ℕ) : List Cell :=
  keys.map (fun c => cellAt df c i)

/-- Row positions of a table. -/
def rowIndices (df : Table) : List ℕ := List.range df.nrows

/-- Row positions belonging to one grouping key. -/
def groupIdx (df : Table) (keys : List String) (g : List Cell) : List ℕ :=
  (rowIndices df).filter (fun i => keyTuple df keys i = g)

/-- A pivot result: the grouping columns (row fields then column
fields, flattened into one key tuple — the two-axis layout of the
pandas result is presentational), the value columns, one body row per
observed key with one aggregate per value column, and the overall
margin aggregates (the grand-total `All` entries produced by
`margins=True`; the per-axis partial margins of the two-axis layout
are likewise presentational). -/
structure Pivot where
  keys : List String
  valueCols : List String
  body : List (List Cell × List (Option AggVal))
  margins : List (Option AggVal)
deriving DecidableEq, Repr

/-- Embedding of `pd.pivot_table(df, index, columns, values, aggfunc,
margins=True)` as called by `generate_pivot`: grouping by no keys at
all raises (`No group keys passed`), a grouping or value column absent
from the table raises `KeyError` — both exceptions are caught by
`generate_pivot`, hence `none`; when `values` is `None` all columns not
used as grouping keys become the value columns. -/
def pivotTable (df : Table) (index cols : List String)
    (values : Option (List String)) (k : AggKind) : Option Pivot :=
  let keys := index ++ cols
  if keys.isEmpty then none
  else if keys.all (fun c => df.names.contains c) then
    let mk := fun (vcols : List String) =>
      let gkeys := ((rowIndices df).map (keyTuple df keys)).dedup
      Pivot.mk keys vcols
        (gkeys.map (fun g =>
          (g, vcols.map (fun v => aggregate k ((groupIdx df keys g).map (cellAt df v))))))
        (vcols.map (fun v => aggregate k ((rowIndices df).map (cellAt df v))))
    match values with
    | some vs => if vs.all (fun c => df.names.contains c) then some (mk vs) else none
    | none => some (mk (df.names.filter (fun c => !(keys.contains c))))
  else none

/-- Embedding of `generate_pivot`: resolve the aggregation through
`agg_map` (unknown selectors silently become sum), normalize an empty
value list to `None`, and delegate to the pivot computation; any
exception there is caught and reported as `None`. -/
def generate_pivot (df : Table) (rows cols : List String)
    (values : Option (List String)) (aggfunc : String) : Option Pivot :=
  let func := agg_map aggfunc
  let pivotValues : Option (List String) :=
    match values with
    | some [] => none
    | v => v
  pivotTable df rows cols pivotValues func

/-- The warning text `pivot_warn_no_values` after formatting: the
format slot is filled with the aggregation type (the original wraps it
in quote characters, omitted here). -/
def pivot_warn_no_values (agg : String) : String :=
  "Please select at least one Value Column for aggregation type " ++ agg

/-- Net effect of one press of the pivot button in `main`: the warning
shown (if any) and the pivot stored in `st.session_state['pivot_df']`. -/
structure PivotClickRes where
  warning : Option String
  pivotDf : Option Pivot
deriving DecidableEq, Repr

/-- Embedding of the pivot-button handler in `main`: an empty value
selection with an aggregation other than count is rejected with a
warning naming the aggregation type and the stored pivot is cleared;
otherwise the (empty-to-`None` normalized) selection is passed to
`generate_pivot` and the result stored. -/
def mainPivotClick (df : Table) (rowFields colFields valueCols : List String)
    (aggType : String) : PivotClickRes :=
  if valueCols.isEmpty ∧ aggType ≠ "count" then
    ⟨some (pivot_warn_no_values aggType), none⟩
  else
    ⟨none, generate_pivot df rowFields colFields
      (if valueCols.isEmpty then none else some valueCols) aggType⟩

/-- Errors of `run_forecast`: too few points (the warning shown when
fewer than 2 points remain), or a caught exception (`forecast_fail`). -/
inductive ForecastErr where
  | insufficientData : ForecastErr
  | forecastFailed : ForecastErr
deriving DecidableEq, Repr

/-- Result of `run_forecast`: the polynomial degree used, the future
positions `n .. n+periods-1` (`future_x`), the point forecasts, and
the population variance of the in-sample residuals — the exact square
of `np.nanstd(resid)`; the code derives the confidence band as the
forecasts plus or minus 1.96 times that standard deviation. -/
structure ForecastRes where
  deg : ℕ
  futureX : List ℕ
  preds : List ℚ
  residVarPop : ℚ
deriving DecidableEq, Repr

deriving instance DecidableEq for Except

/-- Embedding of the degree policy, `deg = 1; if n >= 6: deg = 2`. -/
def selectDegree (n : ℕ) : ℕ := if 6 ≤ n then 2 else 1

/-- Horner evaluation of a polynomial given highest-degree-first
coefficients, as `np.poly1d` stores them. -/
def polyEval (cs : List ℚ) (x : ℚ) : ℚ := cs.foldl (fun a c => a * x + c) 0

/-- Three-by-three determinant, row major. -/
def det3 (a b c d e f g h i : ℚ) : ℚ :=
  a * (e * i - f * h) - b * (d * i - f * g) + c * (d * h - e * g)

/-- Exact degree-1 least-squares fit of the values against positions
0..n-1, solving the normal equations; for full-rank inputs (n at least
2) this is the value `np.polyfit(x, y, 1)` computes.  Coefficients are
highest-degree-first. -/
def fit1 (ys : List ℚ) : List ℚ :=
  let pts := ys.enum.map (fun p => ((p.1 : ℚ), p.2))
  let n : ℚ := ys.length
  let sx := (pts.map Prod.fst).sum
  let sy := (pts.map Prod.snd).sum
  let sxx := (pts.map (fun p => p.1 ^ 2)).sum
  let sxy := (pts.map (fun p => p.1 * p.2)).sum
  let denom := n * sxx - sx ^ 2
  let slope := (n * sxy - sx * sy) / denom
  [slope, (sy - slope * sx) / n]

/-- Exact degree-2 least-squares fit against positions 0..n-1 by
Cramer's rule on the normal equations; for full-rank inputs (n at
least 3, and the pipeline only uses it for n at least 6) this is
`np.polyfit(x, y, 2)`.  Coefficients are highest-degree-first. -/
def fit2 (ys : List ℚ) : List ℚ :=
  let pts := ys.enum.map (fun p => ((p.1 : ℚ), p.2))
  let s0 : ℚ := ys.length
  let s1 := (pts.map Prod.fst).sum
  let s2 := (pts.map (fun p => p.1 ^ 2)).sum
  let s3 := (pts.map (fun p => p.1 ^ 3)).sum
  let s4 := (pts.map (fun p => p.1 ^ 4)).sum
  let t0 := (pts.map Prod.snd).sum
  let t1 := (pts.map (fun p => p.1 * p.2)).sum
  let t2 := (pts.map (fun p => p.1 ^ 2 * p.2)).sum
  let d := det3 s4 s3 s2 s3 s2 s1 s2 s1 s0
  let a := det3 t2 s3 s2 t1 s2 s1 t0 s1 s0 / d
  let b := det3 s4 t2 s2 s3 t1 s1 s2 t0 s0 / d
  let c := det3 s4 s3 t2 s3 s2 t1 s2 s1 t0 / d
  [a, b, c]

/-- `np.polyfit` at the two degrees the pipeline requests. -/
def polyfit (deg : ℕ) (ys : List ℚ) : List ℚ :=
  if deg = 2 then fit2 ys else fit1 ys

/-- The fitting-and-projection block shared verbatim by the two
branches of `run_forecast`: fewer than 2 points is rejected; otherwise
the degree is selected from the point count, the polynomial is fitted
against positions 0..n-1, the residual spread is computed, and the
fitted model is evaluated at positions n..n+periods-1. -/
def fitProject (ys : List ℚ) (periods : ℕ) : Except ForecastErr ForecastRes :=
  if ys.length < 2 then .error .insufficientData
  else
    let n := ys.length
    let deg := selectDegree n
    let coeffs := polyfit deg ys
    let fitted := (List.range n).map (fun i => polyEval coeffs i)
    let resid := (List.zip ys fitted).map (fun p => p.1 - p.2)
    let fut := (List.range periods).map (fun j => n + j)
    .ok ⟨deg, fut, fut.map (fun i => polyEval coeffs i), popVar resid⟩

/-- The series built by the no-date branch of `run_forecast`,
`df[fc_col].dropna().astype(float)`: nulls are dropped, then every
remaining cell must be (or parse as) a number — a failing `astype`
raises, which the enclosing handler reports as a failed forecast. -/
def seriesOf (cells : List Cell) : Option (List ℚ) :=
  let nn := cells.filter (fun c => !c.isNA)
  let conv := fun (c : Cell) => match c with
    | .num q => some q
    | .str s => parseNum s
    | .null => none
  if nn.all (fun c => (conv c).isSome) then some (nn.filterMap conv) else none

/-- Embedding of the no-date branch of `run_forecast`. -/
def run_forecast_index (cells : List Cell) (periods : ℕ) :
    Except ForecastErr ForecastRes :=
  match seriesOf cells with
  | none => .error .forecastFailed
  | some ys => fitProject ys periods

/-- The series built by the date branch of `run_forecast`:
`to_datetime(errors='coerce')` (modelled by the `pdate` parameter, a
timestamp per parseable cell), `dropna` on both columns, then
`resample(freq).mean()` followed by `dropna` — modelled by the
`bucket` parameter mapping each timestamp to its calendar bucket: the
surviving series holds, for each observed bucket in ascending order,
the mean of the values falling in it.  A non-numeric value cell makes
the resampled mean raise, reported as a failed forecast. -/
def resampledSeries (pdate : Cell → Option ℤ) (bucket : ℤ → ℤ)
    (dates vals : List Cell) : Option (List ℚ) :=
  let paired := List.zip dates vals
  let valid := paired.filterMap (fun p =>
    match pdate p.1 with
    | some ts => if p.2.isNA then none else some (ts, p.2)
    | none => none)
  if valid.all (fun p => p.2.isNum) then
    let pts : List (ℤ × ℚ) := valid.filterMap (fun p => p.2.toNum?.map (fun q => (bucket p.1, q)))
    let bks := sortZ ((pts.map Prod.fst).dedup)
    some (bks.map (fun b => meanQ ((pts.filter (fun p => p.1 = b)).map Prod.snd)))
  else none

/-- Embedding of the date branch of `run_forecast`. -/
def run_forecast_date (pdate : Cell → Option ℤ) (bucket : ℤ → ℤ)
    (dates vals : List Cell) (periods : ℕ) : Except ForecastErr ForecastRes :=
  match resampledSeries pdate bucket dates vals with
  | none => .error .forecastFailed
  | some ys => fitProject ys periods

/-- A grid whose densest surviving row is not the row the code ends up
using: row 0 is fully empty, row 1 has one value, row 2 (labelled 2
after the empty row is dropped) is the densest with two values, row 3
has one value. -/
def failGrid : Grid :=
  [[.null, .null], [.str "only", .null], [.str "Date", .str "Sales"], [.str "x", .null]]

/-- C1: the claim says normalization selects as header the surviving
row with the maximum non-null count (ties to the lowest row index) and
takes the rows strictly below it as the body.  On `failGrid` the
maximal row is the one labelled 2, holding Date and Sales — but
`parse_excel_csv` feeds that LABEL to positional indexing (`idxmax`
returns a label, `iloc` takes a position; `dropna` kept the original
labels), so the produced table has header x, nan (the row labelled 3)
and an empty body, contradicting both the claim and the code's own
comment that it picks the row with the most non-null values. -/
theorem c1_header_selection_bug :
    headerLabel failGrid = 2
    ∧ (cleanedRows failGrid).find? (fun p => p.1 = headerLabel failGrid)
        = some (2, [Cell.str "Date", Cell.str "Sales"])
    ∧ parse_excel_csv failGrid = some ⟨[("x", []), ("nan", [])]⟩ := by
  with_unfolding_all decide

/-- A previously loaded one-column table. -/
def prevTable : Table := ⟨[("a", [Cell.num 1])]⟩

/-- A session that already holds `prevTable`. -/
def prevSession : Session := ⟨some prevTable, some "old.csv"⟩

/-- C2, counterexample: the claim says a failed load leaves the
previously loaded table untouched.  Loading a file whose parser
returned `None` into a session holding `prevTable` overwrites the
session with `None`: the previous table is NOT left untouched. -/
theorem c2_counterexample :
    load_data prevSession "new.csv" (.parsed none) = ⟨none, none⟩
    ∧ load_data prevSession "new.csv" (.parsed none) ≠ prevSession
    ∧ prevSession.df = some prevTable := by with_unfolding_all decide

/-- C2, amended: when loading a new source table fails (no table, an
empty table, or an exception), `load_data` explicitly clears the
session — the previously loaded table and file name are discarded and
replaced by `None`; no substitute table is installed. -/
theorem c2_amended (prev : Session) (name : String) (out : ParseOutcome)
    (hext : supportedExt name = true)
    (hfail : out = .raised ∨ out = .parsed none
      ∨ ∃ t, out = .parsed (some t) ∧ tableIsEmpty t = true) :
    load_data prev name out = ⟨none, none⟩ := by
  rcases hfail with h | h | ⟨t, h, he⟩
  · subst h; simp [load_data, hext]
  · subst h; simp [load_data, hext]
  · subst h; simp [load_data, hext, he]

/-- C2, witness for the amended statement at a concrete session. -/
theorem c2_amended_witness :
    load_data prevSession "new.csv" (.parsed none) = ⟨none, none⟩ :=
  c2_amended prevSession "new.csv" (.parsed none) (by with_unfolding_all decide)
    (Or.inr (Or.inl rfl))

/-- A tiny table for the pivot counterexamples. -/
def pivotSampleT : Table := ⟨[("k", [Cell.str "a"]), ("v", [Cell.num 1])]⟩

/-- C3, counterexample: the claim says an unknown aggregation selector
is rejected at the boundary.  The selector bogus is not rejected:
`agg_map.get(aggfunc, np.sum)` silently resolves it to sum, the pivot
is computed, and the result is identical to an explicit sum request. -/
theorem c3_counterexample :
    agg_map "bogus" = AggKind.sum
    ∧ (generate_pivot pivotSampleT ["k"] [] (some ["v"]) "bogus").isSome = true
    ∧ generate_pivot pivotSampleT ["k"] [] (some ["v"]) "bogus"
        = generate_pivot pivotSampleT ["k"] [] (some ["v"]) "sum" := by
  with_unfolding_all decide

/-- C3, amended: a pivot request whose aggregation selector is none of
the seven known kinds is not rejected; the selector silently falls
back to the dictionary default sum and the pivot is computed exactly
as if sum had been requested. -/
theorem c3_amended (df : Table) (rows cols : List String)
    (values : Option (List String)) (s : String)
    (h1 : s ≠ "sum") (h2 : s ≠ "mean") (h3 : s ≠ "median") (h4 : s ≠ "count")
    (h5 : s ≠ "min") (h6 : s ≠ "max") (h7 : s ≠ "std") :
    generate_pivot df rows cols values s = generate_pivot df rows cols values "sum" := by
  simp [generate_pivot, agg_map, h1, h2, h3, h4, h5, h6, h7]

/-- C3, witness for the amended statement at the selector bogus. -/
theorem c3_amended_witness :
    generate_pivot pivotSampleT ["k"] [] (some ["v"]) "bogus"
      = generate_pivot pivotSampleT ["k"] [] (some ["v"]) "sum" :=
  c3_amended pivotSampleT ["k"] [] (some ["v"]) "bogus" (by decide) (by decide)
    (by decide) (by decide) (by decide) (by decide) (by decide)

/-- C7: a pivot request with an empty value selection and an
aggregation other than count is rejected by the button handler in
`main` before any pivot computation is attempted: no pivot result is
produced (the stored pivot is cleared) and the warning shown names the
offending aggregation type. -/
theorem c7_reject_no_value_columns (df : Table) (rowFields colFields : List String)
    (agg : String) (h : agg ≠ "count") :
    mainPivotClick df rowFields colFields [] agg
      = ⟨some (pivot_warn_no_values agg), none⟩
    ∧ ∃ pre, pivot_warn_no_values agg = pre ++ agg := by
  constructor
  · simp [mainPivotClick, h]
  · exact ⟨"Please select at least one Value Column for aggregation type ", rfl⟩

/-- C7, witness at the aggregation type sum. -/
theorem c7_reject_no_value_columns_witness :
    mainPivotClick pivotSampleT ["k"] [] [] "sum"
      = ⟨some (pivot_warn_no_values "sum"), none⟩
    ∧ ∃ pre, pivot_warn_no_values "sum" = pre ++ "sum" :=
  c7_reject_no_value_columns pivotSampleT ["k"] [] "sum" (by decide)

/-- C10: with the count aggregation and an empty value selection the
request is not rejected — the handler normalizes the absent selection
to `None` and passes it through to `generate_pivot` — and (for a
well-formed request: at least one grouping key, all grouping keys
present in the table) the computed pivot takes every column not used
as a grouping key as a value column, each holding per-group non-null
counts. -/
theorem c10_count_passthrough (df : Table) (r c : List String)
    (h1 : (r ++ c).isEmpty = false)
    (h2 : (r ++ c).all (fun k => df.names.contains k) = true) :
    mainPivotClick df r c [] "count" = ⟨none, generate_pivot df r c none "count"⟩
    ∧ ∃ pvt, generate_pivot df r c none "count" = some pvt
        ∧ pvt.valueCols = df.names.filter (fun n => !((r ++ c).contains n))
        ∧ ∀ pr ∈ pvt.body, pr.2 = pvt.valueCols.map (fun v =>
            some (AggVal.q (countNonNull ((groupIdx df (r ++ c) pr.1).map (cellAt df v))))) := by
  have hagg : agg_map "count" = AggKind.count := by decide
  have hgp : generate_pivot df r c none "count" = pivotTable df r c none .count := by
    simp [generate_pivot, hagg]
  constructor
  · simp [mainPivotClick]
  · rw [hgp]
    unfold pivotTable
    rw [if_neg (by simp [h1]), if_pos h2]
    refine ⟨_, rfl, rfl, ?_⟩
    intro pr hpr
    rw [List.mem_map] at hpr
    obtain ⟨g, hg, rfl⟩ := hpr
    simp [aggregate]

/-- A table with one grouping column and two other columns, for the
count-pivot witness. -/
def c10T : Table :=
  ⟨[("k", [Cell.str "a", Cell.str "b"]),
    ("v", [Cell.num 1, Cell.null]),
    ("w", [Cell.str "x", Cell.str "y"])]⟩

/-- C10, witness at a concrete table grouped by its first column. -/
theorem c10_count_passthrough_witness :
    mainPivotClick c10T ["k"] [] [] "count" = ⟨none, generate_pivot c10T ["k"] [] none "count"⟩
    ∧ ∃ pvt, generate_pivot c10T ["k"] [] none "count" = some pvt
        ∧ pvt.valueCols = c10T.names.filter (fun n => !((["k"] ++ []).contains n))
        ∧ ∀ pr ∈ pvt.body, pr.2 = pvt.valueCols.map (fun v =>
            some (AggVal.q (countNonNull ((groupIdx c10T (["k"] ++ []) pr.1).map (cellAt c10T v))))) :=
  c10_count_passthrough c10T ["k"] [] (by decide) (by decide)

/-- C4: in both forecast modes, once at least 2 usable points remain,
the polynomial degree used is 1 for 2 to 5 points and 2 for 6 or more
points — the switch happens at exactly n = 6 (`selectDegree 5 = 1`,
`selectDegree 6 = 2`). -/
theorem c4_degree_policy (cells : List Cell) (pdate : Cell → Option ℤ)
    (bucket : ℤ → ℤ) (dates vals : List Cell) (periods : ℕ) (ys zs : List ℚ)
    (hi : seriesOf cells = some ys)
    (hd : resampledSeries pdate bucket dates vals = some zs) :
    (2 ≤ ys.length → ∃ fr, run_forecast_index cells periods = .ok fr
        ∧ fr.deg = if 6 ≤ ys.length then 2 else 1)
    ∧ (2 ≤ zs.length → ∃ fr, run_forecast_date pdate bucket dates vals periods = .ok fr
        ∧ fr.deg = if 6 ≤ zs.length then 2 else 1)
    ∧ selectDegree 5 = 1 ∧ selectDegree 6 = 2 := by
  refine ⟨?_, ?_, rfl, rfl⟩
  · intro h2
    simp only [run_forecast_index, hi]
    unfold fitProject
    rw [if_neg (by omega)]
    exact ⟨_, rfl, rfl⟩
  · intro h2
    simp only [run_forecast_date, hd]
    unfold fitProject
    rw [if_neg (by omega)]
    exact ⟨_, rfl, rfl⟩

/-- Toy timestamp parser for the forecast witnesses: a numeric cell is
its own timestamp. -/
def pdateW : Cell → Option ℤ := fun c =>
  match c with
  | .num q => some q.num
  | _ => none

/-- Identity bucketing for the forecast witnesses (each timestamp its
own resampling bucket). -/
def bucketW : ℤ → ℤ := fun t => t

/-- C4, witness: a 6-point index series (degree switches to 2) and a
3-row date series collapsing to 2 buckets (degree 1). -/
theorem c4_degree_policy_witness :
    (2 ≤ ([1, 2, 3, 4, 5, 6] : List ℚ).length →
      ∃ fr, run_forecast_index
          [Cell.num 1, Cell.num 2, Cell.num 3, Cell.num 4, Cell.num 5, Cell.num 6] 2 = .ok fr
        ∧ fr.deg = if 6 ≤ ([1, 2, 3, 4, 5, 6] : List ℚ).length then 2 else 1)
    ∧ (2 ≤ ([20, 20] : List ℚ).length →
      ∃ fr, run_forecast_date pdateW bucketW
          [Cell.num 1, Cell.num 2, Cell.num 1] [Cell.num 10, Cell.num 20, Cell.num 30] 2 = .ok fr
        ∧ fr.deg = if 6 ≤ ([20, 20] : List ℚ).length then 2 else 1)
    ∧ selectDegree 5 = 1 ∧ selectDegree 6 = 2 :=
  c4_degree_policy
    [Cell.num 1, Cell.num 2, Cell.num 3, Cell.num 4, Cell.num 5, Cell.num 6]
    pdateW bucketW [Cell.num 1, Cell.num 2, Cell.num 1]
    [Cell.num 10, Cell.num 20, Cell.num 30] 2 [1, 2, 3, 4, 5, 6] [20, 20]
    (by with_unfolding_all decide) (by with_unfolding_all decide)

/-- C5: in both forecast modes the operation fails with
`InsufficientData` exactly when fewer than 2 usable points remain
after null-dropping (and, in date mode, resampling); with exactly 2
points a forecast result is always produced.  The hypotheses say the
cleaned series exists, i.e. every surviving cell is numeric — the
caller guarantees this by offering only numeric columns for
forecasting. -/
theorem c5_insufficient_data_boundary (cells : List Cell) (pdate : Cell → Option ℤ)
    (bucket : ℤ → ℤ) (dates vals : List Cell) (periods : ℕ) (ys zs : List ℚ)
    (hi : seriesOf cells = some ys)
    (hd : resampledSeries pdate bucket dates vals = some zs) :
    (run_forecast_index cells periods = .error .insufficientData ↔ ys.length < 2)
    ∧ (ys.length = 2 → ∃ fr, run_forecast_index cells periods = .ok fr)
    ∧ (run_forecast_date pdate bucket dates vals periods = .error .insufficientData
        ↔ zs.length < 2)
    ∧ (zs.length = 2 → ∃ fr, run_forecast_date pdate bucket dates vals periods = .ok fr) := by
  refine ⟨?_, ?_, ?_, ?_⟩
  · simp only [run_forecast_index, hi]
    unfold fitProject
    split_ifs with h <;> simp [h]
  · intro h2
    simp only [run_forecast_index, hi]
    unfold fitProject
    rw [if_neg (by omega)]
    exact ⟨_, rfl⟩
  · simp only [run_forecast_date, hd]
    unfold fitProject
    split_ifs with h <;> simp [h]
  · intro h2
    simp only [run_forecast_date, hd]
    unfold fitProject
    rw [if_neg (by omega)]
    exact ⟨_, rfl⟩

/-- C5, witness: a 2-point index series and a 2-bucket date series. -/
theorem c5_insufficient_data_boundary_witness :
    (run_forecast_index [Cell.num 100, Cell.num 150] 3 = .error .insufficientData
      ↔ ([100, 150] : List ℚ).length < 2)
    ∧ (([100, 150] : List ℚ).length = 2 →
        ∃ fr, run_forecast_index [Cell.num 100, Cell.num 150] 3 = .ok fr)
    ∧ (run_forecast_date pdateW bucketW [Cell.num 1, Cell.num 2]
          [Cell.num 10, Cell.num 20] 3 = .error .insufficientData
        ↔ ([10, 20] : List ℚ).length < 2)
    ∧ (([10, 20] : List ℚ).length = 2 →
        ∃ fr, run_forecast_date pdateW bucketW [Cell.num 1, Cell.num 2]
          [Cell.num 10, Cell.num 20] 3 = .ok fr) :=
  c5_insufficient_data_boundary [Cell.num 100, Cell.num 150] pdateW bucketW
    [Cell.num 1, Cell.num 2] [Cell.num 10, Cell.num 20] 3 [100, 150] [10, 20]
    (by with_unfolding_all decide) (by with_unfolding_all decide)

/-- C6: forecasting the series 100, 150 with horizon 3 and no date
column: the degree-1 least-squares line through the 2 points is exact
(slope 50, intercept 100), it is projected at positions 2, 3, 4, and
the point forecasts are exactly 200, 250, 300 (with zero residual
spread). -/
theorem c6_two_point_linear_forecast :
    run_forecast_index [Cell.num 100, Cell.num 150] 3
      = .ok ⟨1, [2, 3, 4], [200, 250, 300], 0⟩ := by
  with_unfolding_all decide

/-- C8: the numeric coercion is all-or-nothing per column, for any
cell parser.  If even one text cell fails to parse, the whole column
is returned unchanged — no per-cell conversion; if every text cell
parses, the whole column becomes numeric (only numbers and nulls
remain). -/
theorem c8_all_or_nothing (parse : String → Option ℚ) (col : List Cell) :
    ((∃ s, Cell.str s ∈ col ∧ parse s = none) → toNumericIgnore parse col = col)
    ∧ ((∀ s, Cell.str s ∈ col → (parse s).isSome) →
        ∀ c ∈ toNumericIgnore parse col, c = Cell.null ∨ ∃ q, c = Cell.num q) := by
  constructor
  · rintro ⟨s, hs, hp⟩
    unfold toNumericIgnore
    rw [if_neg]
    intro hall
    rw [List.all_eq_true] at hall
    have hfs := hall _ hs
    simp [hp] at hfs
  · intro hall c hc
    unfold toNumericIgnore at hc
    rw [if_pos] at hc
    · rw [List.mem_map] at hc
      obtain ⟨c0, _, rfl⟩ := hc
      cases c0 <;> simp
    · rw [List.all_eq_true]
      intro x hx
      cases x with
      | null => simp
      | num q => simp
      | str s => simpa using hall s hx

/-- C8, witness: with the concrete parser, a column containing one
unparseable text cell stays unchanged, and a fully parseable column
becomes numeric. -/
theorem c8_all_or_nothing_witness :
    toNumericIgnore parseNum [Cell.num 1, Cell.str "abc"] = [Cell.num 1, Cell.str "abc"]
    ∧ ∀ c ∈ toNumericIgnore parseNum [Cell.str "2", Cell.null],
        c = Cell.null ∨ ∃ q, c = Cell.num q :=
  ⟨(c8_all_or_nothing parseNum [Cell.num 1, Cell.str "abc"]).1
      ⟨"abc", by decide, by with_unfolding_all decide⟩,
   (c8_all_or_nothing parseNum [Cell.str "2", Cell.null]).2
      (by
        intro s hs
        simp only [List.mem_cons, List.not_mem_nil, or_false] at hs
        rcases hs with hs | hs
        · injection hs with h
          subst h
          with_unfolding_all decide
        · simp at hs)⟩

/-- The one-numeric-column table 1..5 of the stats claim. -/
def statsT : Table :=
  ⟨[("v", [Cell.num 1, Cell.num 2, Cell.num 3, Cell.num 4, Cell.num 5])]⟩

/-- C9: descriptive statistics on a table with one numeric column
holding 1..5 yield count 5, mean 3, median 3, max 5, min 1, and a
sample variance of 5/2 — i.e. a standard deviation of √2.5 ≈ 1.5811
under the sample (ddof = 1) convention pandas uses consistently in
`stats_summary` (the `varSample` field carries the exact square of the
reported standard deviation). -/
theorem c9_descriptive_stats :
    stats_summary statsT
      = [("v", ⟨5, some 3, some 3, some 5, some 1, some (5/2)⟩)]
    ∧ Real.sqrt ((5 : ℝ)/2) = Real.sqrt 2.5 := by
  constructor
  · with_unfolding_all decide
  · have h : (5 : ℝ)/2 = 2.5 := by norm_num
    rw [h]
